import Mathlib

/-!
Verification of the PanInsight client against its specification.

The development shallowly embeds the two components the claims concern:
* the image viewer (`ImageViewer.tsx`): transform state, zoom / rotate /
  reset commands, mouse and touch pan tracking, the rendered CSS transform,
  and the export (bake) stage `handleSave`;
* the upload page (`UploadScan`): file validation, file selection, and the
  generated sample report.

Numeric values that are JavaScript numbers are modelled as rationals; the
decimal literals (1.2, 0.1, 5) are taken at their mathematical value.
Strings are Lean strings; `toLowerCase` and `endsWith` act on the
underlying character lists (`jsToLower`, `jsEndsWith`), which agrees with
the JavaScript operations on the ASCII strings involved.
-/

namespace PanInsight

/-- The viewer component state: the `ViewerState` record of
`ImageViewer.tsx` (zoom, rotation, contrast, brightness) together with the
separately-held `isDragging`, `dragStart` and `panOffset` state hooks. -/
structure ViewerState where
  zoom : ℚ
  rotation : ℤ
  contrast : ℚ
  brightness : ℚ
  isDragging : Bool
  dragStart : ℚ × ℚ
  panOffset : ℚ × ℚ
deriving DecidableEq, Repr

/-- The initial state of the viewer component (`useState` initialisers). -/
def initViewerState : ViewerState :=
  { zoom := 1
    rotation := 0
    contrast := 100
    brightness := 100
    isDragging := false
    dragStart := (0, 0)
    panOffset := (0, 0) }

/-- Direction argument of `handleZoom` (the string union `'in' | 'out'`). -/
inductive ZoomDir where
  | zin
  | zout
deriving DecidableEq, Repr

/-- Source `handleZoom`: zoom in multiplies by 1.2 clamped above at 5 with
`Math.min`, zoom out divides by 1.2 clamped below at 0.1 with `Math.max`. -/
def handleZoom (d : ZoomDir) (s : ViewerState) : ViewerState :=
  { s with zoom :=
      match d with
      | .zin => min (s.zoom * 1.2) 5
      | .zout => max (s.zoom / 1.2) 0.1 }

/-- Source `handleRotate`: add 90 to the rotation, modulo 360. -/
def handleRotate (s : ViewerState) : ViewerState :=
  { s with rotation := (s.rotation + 90) % 360 }

/-- Source `handleContrastChange`: direct set of the contrast value. -/
def handleContrastChange (v : ℚ) (s : ViewerState) : ViewerState :=
  { s with contrast := v }

/-- Source `handleBrightnessChange`: direct set of the brightness value. -/
def handleBrightnessChange (v : ℚ) (s : ViewerState) : ViewerState :=
  { s with brightness := v }

/-- Source `handleReset`: restores the `ViewerState` record to its defaults and
sets `panOffset` to (0,0).  The dragging hooks are not touched. -/
def handleReset (s : ViewerState) : ViewerState :=
  { s with zoom := 1, rotation := 0, contrast := 100, brightness := 100,
           panOffset := (0, 0) }

/-- Source `handleMouseDown`: when `zoom > 1`, start dragging and record
`dragStart = clientPos - panOffset`; otherwise do nothing. -/
def handleMouseDown (p : ℚ × ℚ) (s : ViewerState) : ViewerState :=
  if 1 < s.zoom then
    { s with isDragging := true
             dragStart := (p.1 - s.panOffset.1, p.2 - s.panOffset.2) }
  else s

/-- Source `handleMouseMove`: while dragging with `zoom > 1`, set
`panOffset = clientPos - dragStart`; otherwise do nothing. -/
def handleMouseMove (p : ℚ × ℚ) (s : ViewerState) : ViewerState :=
  if s.isDragging ∧ 1 < s.zoom then
    { s with panOffset := (p.1 - s.dragStart.1, p.2 - s.dragStart.2) }
  else s

/-- Source `handleMouseUp` (also used for mouse-leave): stop dragging. -/
def handleMouseUp (s : ViewerState) : ViewerState :=
  { s with isDragging := false }

/-- Source `handleTouchStart`: when `zoom > 1` and the touch count is exactly 1,
start dragging and record `dragStart = touchPos - panOffset`. -/
def handleTouchStart (touches : List (ℚ × ℚ)) (s : ViewerState) : ViewerState :=
  if 1 < s.zoom ∧ touches.length = 1 then
    match touches with
    | t :: _ =>
        { s with isDragging := true
                 dragStart := (t.1 - s.panOffset.1, t.2 - s.panOffset.2) }
    | [] => s
  else s

/-- Source `handleTouchMove`: while dragging with `zoom > 1` and touch count 1,
set `panOffset = touchPos - dragStart`. -/
def handleTouchMove (touches : List (ℚ × ℚ)) (s : ViewerState) : ViewerState :=
  if s.isDragging ∧ 1 < s.zoom ∧ touches.length = 1 then
    match touches with
    | t :: _ =>
        { s with panOffset := (t.1 - s.dragStart.1, t.2 - s.dragStart.2) }
    | [] => s
  else s

/-- Source `handleTouchEnd`: stop dragging. -/
def handleTouchEnd (s : ViewerState) : ViewerState :=
  { s with isDragging := false }

/-- The user-visible events of the viewer component. `save` is the Save
button: `handleSave` reads the state and produces an image but performs no
state update. -/
inductive ViewerEvent where
  | zoomIn
  | zoomOut
  | rotate
  | reset
  | setContrast (v : ℚ)
  | setBrightness (v : ℚ)
  | mouseDown (p : ℚ × ℚ)
  | mouseMove (p : ℚ × ℚ)
  | mouseUp
  | touchStart (ts : List (ℚ × ℚ))
  | touchMove (ts : List (ℚ × ℚ))
  | touchEnd
  | save
deriving DecidableEq, Repr

/-- One step of the viewer: dispatch an event to its handler. -/
def step (s : ViewerState) (e : ViewerEvent) : ViewerState :=
  match e with
  | .zoomIn => handleZoom .zin s
  | .zoomOut => handleZoom .zout s
  | .rotate => handleRotate s
  | .reset => handleReset s
  | .setContrast v => handleContrastChange v s
  | .setBrightness v => handleBrightnessChange v s
  | .mouseDown p => handleMouseDown p s
  | .mouseMove p => handleMouseMove p s
  | .mouseUp => handleMouseUp s
  | .touchStart ts => handleTouchStart ts s
  | .touchMove ts => handleTouchMove ts s
  | .touchEnd => handleTouchEnd s
  | .save => s

/-- Run a sequence of viewer events from a state. -/
def run (s : ViewerState) (es : List ViewerEvent) : ViewerState :=
  es.foldl step s

/-- The CSS transform applied to the displayed image:
`scale(zoom) rotate(rotation deg) translate(panOffset.x / zoom, panOffset.y / zoom)`,
plus the `contrast(c%) brightness(b%)` filter. -/
structure RenderTransform where
  scale : ℚ
  rotateDeg : ℤ
  translate : ℚ × ℚ
  filterContrast : ℚ
  filterBrightness : ℚ
deriving DecidableEq, Repr

/-- The inline style of the `img` element, as a function of the state. -/
def renderTransform (s : ViewerState) : RenderTransform :=
  { scale := s.zoom
    rotateDeg := s.rotation
    translate := (s.panOffset.1 / s.zoom, s.panOffset.2 / s.zoom)
    filterContrast := s.contrast
    filterBrightness := s.brightness }

/-- The decoded source image handle: its natural pixel dimensions. -/
structure SourceImage where
  naturalWidth : ℚ
  naturalHeight : ℚ
deriving DecidableEq, Repr

/-- The output of the export stage `handleSave`: the allocated canvas
extents, the filter set on the drawing context, and the single
`drawImage` call (its rotation, if any, and its destination rectangle). -/
structure ExportResult where
  width : ℚ
  height : ℚ
  filterContrast : ℚ
  filterBrightness : ℚ
  drawRotationDeg : ℤ
  drawX : ℚ
  drawY : ℚ
  drawW : ℚ
  drawH : ℚ
deriving DecidableEq, Repr

/-- Source `handleSave`: allocate a canvas of `naturalWidth * zoom` by
`naturalHeight * zoom`, set the contrast/brightness filter, then draw the
source — rotated about the canvas centre when `rotation ≠ 0`, directly at
the origin otherwise.  No state hook is written. -/
def handleSave (img : SourceImage) (s : ViewerState) : ExportResult :=
  let scaledWidth := img.naturalWidth * s.zoom
  let scaledHeight := img.naturalHeight * s.zoom
  if s.rotation ≠ 0 then
    { width := scaledWidth
      height := scaledHeight
      filterContrast := s.contrast
      filterBrightness := s.brightness
      drawRotationDeg := s.rotation
      drawX := -scaledWidth / 2
      drawY := -scaledHeight / 2
      drawW := scaledWidth
      drawH := scaledHeight }
  else
    { width := scaledWidth
      height := scaledHeight
      filterContrast := s.contrast
      filterBrightness := s.brightness
      drawRotationDeg := 0
      drawX := 0
      drawY := 0
      drawW := scaledWidth
      drawH := scaledHeight }

/-!  The upload page (`UploadScan`).  -/

/-- A browser `File` handle as the upload page reads it: name, byte size,
and MIME type string. -/
structure JSFile where
  name : String
  size : ℕ
  mime : String
deriving DecidableEq, Repr

/-- JavaScript `toLowerCase`, character by character on the underlying
character list (all strings involved are ASCII). -/
def jsToLower (s : String) : String := ⟨s.data.map Char.toLower⟩

/-- JavaScript `endsWith`, as a suffix test on the character lists. -/
def jsEndsWith (s post : String) : Bool := post.data.isSuffixOf s.data

/-- Source `acceptedTypes`: the file-name extensions accepted by the upload page. -/
def acceptedTypes : List String := [".dcm", ".jpg", ".jpeg", ".png"]

/-- Source `acceptedMimeTypes`: the MIME types accepted by the upload page. -/
def acceptedMimeTypes : List String :=
  ["image/jpeg", "image/jpg", "image/png", "application/dicom",
   "application/octet-stream"]

/-- Source `validateFile`: valid type (lowercased name ends with an accepted
extension, or MIME type is accepted) and size at most 50 * 1024 * 1024. -/
def validateFile (f : JSFile) : Bool :=
  (acceptedTypes.any (fun t => jsEndsWith (jsToLower f.name) t)
      || acceptedMimeTypes.contains f.mime)
    && f.size ≤ 50 * 1024 * 1024

/-- Source `handleFileSelect`: on an invalid file, show an alert and return
without touching the selected-file state; on a valid file, select it.
Returns the new selected-file state and whether the alert was shown. -/
def handleFileSelect (prev : Option JSFile) (f : JSFile) :
    Option JSFile × Bool :=
  if validateFile f then (some f, false) else (prev, true)

/-- The report object built by `handleAnalyze` (`sampleReportData`); the
`analysisDate` string is taken as given since it reads the clock. -/
structure ReportData where
  scanType : String
  analysisDate : String
  confidence : ℤ
  findings : List String
  recommendations : List String
  riskLevel : String
  nextSteps : List String
  followUpTimeline : String
deriving DecidableEq, Repr

/-- Source `sampleReportData` as a function of the selected file name, the date
string, and the value `rand` returned by `Math.random()` (a number in
[0, 1)):  `confidence = Math.floor(rand * 30) + 70`. -/
def sampleReportData (fileName : String) (analysisDate : String)
    (rand : ℚ) : ReportData :=
  { scanType :=
      if jsEndsWith (jsToLower fileName) ".dcm" then "DICOM CT Scan"
      else "Medical Image"
    analysisDate := analysisDate
    confidence := ⌊rand * 30⌋ + 70
    findings :=
      ["No significant abnormalities detected in the pancreatic region",
       "Normal pancreatic tissue density and structure observed",
       "Vascular structures appear within normal limits",
       "No evidence of mass lesions or calcifications",
       "Pancreatic duct appears normal in caliber"]
    recommendations :=
      ["Continue routine monitoring as recommended by your healthcare provider",
       "Maintain healthy lifestyle habits including balanced diet and regular exercise",
       "Schedule follow-up imaging in 6-12 months as per standard protocols",
       "Consider annual screening if you have family history of pancreatic conditions",
       "Report any new symptoms to your healthcare provider promptly"]
    riskLevel := "Low"
    nextSteps :=
      ["Share this report with your primary care physician",
       "Schedule follow-up appointment within 3-6 months",
       "Maintain regular health check-ups",
       "Monitor for any new symptoms or changes",
       "Consider genetic counseling if family history is present"]
    followUpTimeline :=
      "Recommended follow-up in 6-12 months with repeat imaging and consultation with your healthcare provider." }

/-!  Helper lemmas.  -/

/-- One zoom command keeps the zoom inside [0.1, 5]. -/
theorem zoom_step_bounds (d : ZoomDir) (s : ViewerState)
    (h1 : (0.1 : ℚ) ≤ s.zoom) (h2 : s.zoom ≤ 5) :
    (0.1 : ℚ) ≤ (handleZoom d s).zoom ∧ (handleZoom d s).zoom ≤ 5 := by
  cases d with
  | zin =>
      refine ⟨le_min (by nlinarith) (by norm_num), ?_⟩
      simp only [handleZoom]; exact min_le_right (s.zoom * 1.2) 5
  | zout =>
      refine ⟨?_, max_le ?_ (by norm_num)⟩
      · simp only [handleZoom]; exact le_max_right (s.zoom / 1.2) 0.1
      · rw [div_le_iff₀ (by norm_num)]
        nlinarith

/-- A mouse move leaves the state alone when not dragging. -/
theorem mouseMove_noop (q : ℚ × ℚ) (t : ViewerState)
    (h : t.isDragging = false) : handleMouseMove q t = t := by
  simp [handleMouseMove, h]

/-- A touch move leaves the state alone when not dragging. -/
theorem touchMove_noop (ts : List (ℚ × ℚ)) (t : ViewerState)
    (h : t.isDragging = false) : handleTouchMove ts t = t := by
  simp [handleTouchMove, h]

/-- Any sequence of mouse moves leaves the state alone when not dragging. -/
theorem foldl_mouseMove_noop (moves : List (ℚ × ℚ)) (t : ViewerState)
    (h : t.isDragging = false) :
    moves.foldl (fun a q => handleMouseMove q a) t = t := by
  induction moves with
  | nil => rfl
  | cons q qs ih => simp [List.foldl_cons, mouseMove_noop q t h, ih]

/-- Any sequence of touch moves leaves the state alone when not dragging. -/
theorem foldl_touchMove_noop (tmoves : List (List (ℚ × ℚ))) (t : ViewerState)
    (h : t.isDragging = false) :
    tmoves.foldl (fun a ts => handleTouchMove ts a) t = t := by
  induction tmoves with
  | nil => rfl
  | cons ts tss ih => simp [List.foldl_cons, touchMove_noop ts t h, ih]

/-!  Claim theorems.  -/

/-- C1: from any zoom in [0.1, 5], every sequence of zoomIn/zoomOut
commands keeps the zoom in [0.1, 5]; zoomIn is multiplication by 1.2
clamped above at 5, zoomOut is division by 1.2 clamped below at 0.1, and
at a bound the command saturates, leaving the zoom at the bound. -/
theorem zoom_seq_stays_in_bounds (s : ViewerState) (ds : List ZoomDir)
    (h1 : (0.1 : ℚ) ≤ s.zoom) (h2 : s.zoom ≤ 5) :
    ((0.1 : ℚ) ≤ (ds.foldl (fun t d => handleZoom d t) s).zoom ∧
      (ds.foldl (fun t d => handleZoom d t) s).zoom ≤ 5) ∧
    (handleZoom .zin s).zoom = min (s.zoom * 1.2) 5 ∧
    (handleZoom .zout s).zoom = max (s.zoom / 1.2) 0.1 ∧
    (s.zoom = 5 → (handleZoom .zin s).zoom = 5) ∧
    (s.zoom = 0.1 → (handleZoom .zout s).zoom = 0.1) := by
  refine ⟨?_, rfl, rfl, ?_, ?_⟩
  · induction ds generalizing s with
    | nil => exact ⟨h1, h2⟩
    | cons d ds ih =>
        have hb := zoom_step_bounds d s h1 h2
        simpa [List.foldl_cons] using ih (handleZoom d s) hb.1 hb.2
  · intro h
    simp only [handleZoom, h]
    norm_num
  · intro h
    simp only [handleZoom, h]
    rw [max_eq_right]
    rw [div_le_iff₀ (by norm_num)]
    norm_num

/-- Witness for C1: two zoom-in commands from the initial state keep the
zoom within [0.1, 5], and the commands saturate at the bounds. -/
theorem zoom_seq_stays_in_bounds_witness :
    ((0.1 : ℚ) ≤
        ([ZoomDir.zin, ZoomDir.zin].foldl
          (fun t d => handleZoom d t) initViewerState).zoom ∧
      ([ZoomDir.zin, ZoomDir.zin].foldl
        (fun t d => handleZoom d t) initViewerState).zoom ≤ 5) ∧
    (handleZoom .zin { initViewerState with zoom := 5 }).zoom = 5 ∧
    (handleZoom .zout { initViewerState with zoom := 0.1 }).zoom = 0.1 := by
  have h1 := zoom_seq_stays_in_bounds initViewerState [ZoomDir.zin, ZoomDir.zin]
    (by norm_num [initViewerState]) (by norm_num [initViewerState])
  have h2 := zoom_seq_stays_in_bounds { initViewerState with zoom := 5 } []
    (by norm_num [initViewerState]) (by norm_num [initViewerState])
  have h3 := zoom_seq_stays_in_bounds { initViewerState with zoom := 0.1 } []
    (by norm_num [initViewerState]) (by norm_num [initViewerState])
  exact ⟨h1.1, h2.2.2.2.1 rfl, h3.2.2.2.2 rfl⟩

/-- C2: a file passes validation iff its lowercased name ends with one of
.dcm, .jpg, .jpeg, .png or its MIME type is one of the five accepted
types, and its size is at most 52,428,800 bytes; a rejected file raises
the alert and leaves the previously selected file unchanged, an accepted
file becomes the selection with no alert. -/
theorem validateFile_spec (prev : Option JSFile) (f : JSFile) :
    (validateFile f = true ↔
      ((jsEndsWith (jsToLower f.name) ".dcm" = true ∨
          jsEndsWith (jsToLower f.name) ".jpg" = true ∨
          jsEndsWith (jsToLower f.name) ".jpeg" = true ∨
          jsEndsWith (jsToLower f.name) ".png" = true ∨
          f.mime = "image/jpeg" ∨ f.mime = "image/jpg" ∨
          f.mime = "image/png" ∨ f.mime = "application/dicom" ∨
          f.mime = "application/octet-stream") ∧
        f.size ≤ 52428800)) ∧
    (validateFile f = false → handleFileSelect prev f = (prev, true)) ∧
    (validateFile f = true → handleFileSelect prev f = (some f, false)) := by
  refine ⟨?_, ?_, ?_⟩
  · simp only [validateFile, acceptedTypes, acceptedMimeTypes,
      Bool.and_eq_true, Bool.or_eq_true, List.any_cons, List.any_nil,
      List.contains_cons, List.contains_nil, Bool.or_false,
      decide_eq_true_eq, beq_iff_eq]
    norm_num
    tauto
  · intro h
    simp [handleFileSelect, h]
  · intro h
    simp [handleFileSelect, h]

/-- Witness for C2: the 1 KiB file scan.txt is rejected, the selection is
left at the previously chosen file and the alert fires; the boundary file
of exactly 52,428,800 bytes is accepted and becomes the selection. -/
theorem validateFile_spec_witness :
    handleFileSelect (some ⟨"scan.DCM", 1048576, "application/octet-stream"⟩)
        ⟨"scan.txt", 1024, "text/plain"⟩
      = (some ⟨"scan.DCM", 1048576, "application/octet-stream"⟩, true) ∧
    handleFileSelect none ⟨"scan.png", 52428800, "image/png"⟩
      = (some ⟨"scan.png", 52428800, "image/png"⟩, false) := by
  constructor
  · exact (validateFile_spec _ _).2.1 (by decide)
  · exact (validateFile_spec _ _).2.2 (by decide)

/-- C3: a mouse or single-touch pan gesture initiated while zoom ≤ 1 is a
no-op: the press does not enter the dragging state and the press together
with every subsequent move of the gesture leaves the state — in
particular panOffset — unchanged; a touch press enters the dragging state
only when it was already dragging or zoom > 1 and the touch count is 1. -/
theorem pan_gesture_noop_when_not_zoomed (s : ViewerState) (p : ℚ × ℚ)
    (moves : List (ℚ × ℚ)) (ts : List (ℚ × ℚ)) (tmoves : List (List (ℚ × ℚ)))
    (hd : s.isDragging = false) (hz : s.zoom ≤ 1) :
    moves.foldl (fun a q => handleMouseMove q a) (handleMouseDown p s) = s ∧
    tmoves.foldl (fun a qs => handleTouchMove qs a) (handleTouchStart ts s) = s ∧
    (∀ (u : ViewerState) (ts' : List (ℚ × ℚ)), u.isDragging = false →
      (handleTouchStart ts' u).isDragging = true →
        1 < u.zoom ∧ ts'.length = 1) := by
  have hnz : ¬ (1 : ℚ) < s.zoom := not_lt.mpr hz
  have hmd : handleMouseDown p s = s := by simp [handleMouseDown, hnz]
  have hts : handleTouchStart ts s = s := by
    simp [handleTouchStart, hnz]
  refine ⟨?_, ?_, ?_⟩
  · rw [hmd]; exact foldl_mouseMove_noop moves s hd
  · rw [hts]; exact foldl_touchMove_noop tmoves s hd
  · intro u ts' hu hdrag
    by_cases hc : 1 < u.zoom ∧ ts'.length = 1
    · exact hc
    · rw [handleTouchStart.eq_def, if_neg hc] at hdrag
      rw [hu] at hdrag
      exact absurd hdrag (by simp)

/-- Witness for C3: with zoom 1, a press at (10,10) followed by a move to
(50,50) leaves the panOffset at (0,0) and the tracker out of the dragging
state. -/
theorem pan_gesture_noop_when_not_zoomed_witness :
    ([((50 : ℚ), (50 : ℚ))].foldl (fun a q => handleMouseMove q a)
        (handleMouseDown (10, 10) initViewerState)).panOffset = (0, 0) ∧
    ([((50 : ℚ), (50 : ℚ))].foldl (fun a q => handleMouseMove q a)
        (handleMouseDown (10, 10) initViewerState)).isDragging = false := by
  have h := pan_gesture_noop_when_not_zoomed initViewerState (10, 10)
    [((50 : ℚ), (50 : ℚ))] [] [] rfl (by norm_num [initViewerState])
  rw [h.1]
  exact ⟨rfl, rfl⟩

/-- C4 counterexample: zoom in once, pan by 30 pixels, zoom back out — a
reachable state with zoom = 1 (so zoom ≤ 1) whose rendered transform
still applies the nonzero pan translation (30, 0). -/
theorem render_translate_nonzero_at_low_zoom :
    ((run initViewerState
        [.zoomIn, .mouseDown (100, 100), .mouseMove (130, 100),
          .mouseUp, .zoomOut]).zoom ≤ 1) ∧
    (renderTransform (run initViewerState
        [.zoomIn, .mouseDown (100, 100), .mouseMove (130, 100),
          .mouseUp, .zoomOut])).translate ≠ (0, 0) := by
  have hrun : run initViewerState
      [.zoomIn, .mouseDown (100, 100), .mouseMove (130, 100),
        .mouseUp, .zoomOut]
      = { zoom := 1, rotation := 0, contrast := 100, brightness := 100,
          isDragging := false, dragStart := (100, 100),
          panOffset := (30, 0) } := by
    norm_num [run, step, handleZoom, handleMouseDown, handleMouseMove,
      handleMouseUp, initViewerState, min_def, max_def]
  rw [hrun]
  refine ⟨le_refl 1, ?_⟩
  norm_num [renderTransform]

/-- C4 (amended): the rendered transform applies the pan translation
`(panOffset.x / zoom, panOffset.y / zoom)` unconditionally, at every zoom;
what holds instead of the claimed invariant is that panOffset is only
*written* with a new value when zoom > 1, except for the reset command
which clears it — so a nonzero panOffset can persist into states with
zoom ≤ 1 and is then still applied. -/
theorem panOffset_written_only_when_zoomed (s : ViewerState) (e : ViewerEvent) :
    (renderTransform s).translate
        = (s.panOffset.1 / s.zoom, s.panOffset.2 / s.zoom) ∧
    ((step s e).panOffset ≠ s.panOffset → e = .reset ∨ 1 < s.zoom) := by
  refine ⟨rfl, ?_⟩
  intro hne
  cases e with
  | reset => exact Or.inl rfl
  | mouseMove p =>
      by_cases hc : s.isDragging = true ∧ 1 < s.zoom
      · exact Or.inr hc.2
      · rw [step, handleMouseMove] at hne
        rw [if_neg (by simpa using hc)] at hne
        exact absurd rfl hne
  | touchMove ts =>
      by_cases hc : s.isDragging = true ∧ 1 < s.zoom ∧ ts.length = 1
      · exact Or.inr hc.2.1
      · rw [step, handleTouchMove.eq_def] at hne
        rw [if_neg (by simpa using hc)] at hne
        exact absurd rfl hne
  | mouseDown p =>
      rw [step, handleMouseDown] at hne
      by_cases hc : 1 < s.zoom
      · exact Or.inr hc
      · rw [if_neg hc] at hne
        exact absurd rfl hne
  | touchStart ts =>
      rw [step, handleTouchStart.eq_def] at hne
      by_cases hc : 1 < s.zoom ∧ ts.length = 1
      · exact Or.inr hc.1
      · rw [if_neg hc] at hne
        exact absurd rfl hne
  | zoomIn => exact absurd rfl hne
  | zoomOut => exact absurd rfl hne
  | rotate => exact absurd rfl hne
  | setContrast v => exact absurd rfl hne
  | setBrightness v => exact absurd rfl hne
  | mouseUp => exact absurd rfl hne
  | touchEnd => exact absurd rfl hne
  | save => exact absurd rfl hne

/-- Witness for the amended C4: a dragging state at zoom 2 where a mouse
move writes a new panOffset, and the amended theorem yields zoom > 1. -/
theorem panOffset_written_only_when_zoomed_witness :
    (step ⟨2, 0, 100, 100, true, (100, 100), (0, 0)⟩
        (.mouseMove (130, 100))).panOffset ≠ (0, 0) ∧
    (1 : ℚ) < (⟨2, 0, 100, 100, true, (100, 100), (0, 0)⟩ : ViewerState).zoom := by
  have hne : (step ⟨2, 0, 100, 100, true, (100, 100), (0, 0)⟩
      (.mouseMove (130, 100))).panOffset ≠ (0, 0) := by
    norm_num [step, handleMouseMove]
  refine ⟨hne, ?_⟩
  have h := (panOffset_written_only_when_zoomed
    ⟨2, 0, 100, 100, true, (100, 100), (0, 0)⟩ (.mouseMove (130, 100))).2 hne
  rcases h with h | h
  · exact absurd h (by simp)
  · exact h

/-- C5: reset is constant on the transform fields — it always yields
zoom 1, rotation 0, contrast 100, brightness 100 and panOffset (0,0),
whatever the prior state — and it is idempotent: applying it twice gives
the same state as applying it once. -/
theorem reset_idempotent_and_constant (s : ViewerState) :
    (handleReset s).zoom = 1 ∧ (handleReset s).rotation = 0 ∧
    (handleReset s).contrast = 100 ∧ (handleReset s).brightness = 100 ∧
    (handleReset s).panOffset = (0, 0) ∧
    handleReset (handleReset s) = handleReset s := by
  simp [handleReset]

/-- C6: the rotate command adds 90 to the rotation modulo 360, so from any
rotation in {0, 90, 180, 270} four applications return the rotation to its
original value, and one application stays inside {0, 90, 180, 270}. -/
theorem rotate_mod360_cycle (s : ViewerState)
    (h : s.rotation = 0 ∨ s.rotation = 90 ∨ s.rotation = 180 ∨
      s.rotation = 270) :
    (handleRotate s).rotation = (s.rotation + 90) % 360 ∧
    (handleRotate (handleRotate (handleRotate (handleRotate s)))).rotation
        = s.rotation ∧
    ((handleRotate s).rotation = 0 ∨ (handleRotate s).rotation = 90 ∨
      (handleRotate s).rotation = 180 ∨ (handleRotate s).rotation = 270) := by
  rcases h with h | h | h | h <;> simp [handleRotate, h]

/-- Witness for C6: four rotations from the initial state (rotation 0)
restore the rotation, and one rotation lands on 90. -/
theorem rotate_mod360_cycle_witness :
    (handleRotate (handleRotate (handleRotate
        (handleRotate initViewerState)))).rotation
      = initViewerState.rotation ∧
    (handleRotate initViewerState).rotation = 90 := by
  have h := rotate_mod360_cycle initViewerState (Or.inl rfl)
  refine ⟨h.2.1, ?_⟩
  rw [h.1]
  decide

/-- C7: with zoom > 1 a press records `dragStart = pointer - panOffset`
and enters the dragging state, every move while dragging recomputes
`panOffset = pointer - dragStart` absolutely from the recorded origin
(leaving the origin untouched), so a press at p followed by a move to q
yields `panOffset = q - (p - panOffset₀)`. -/
theorem drag_sets_offset_absolutely (s : ViewerState) (p q : ℚ × ℚ)
    (hz : 1 < s.zoom) :
    (handleMouseDown p s).isDragging = true ∧
    (handleMouseDown p s).dragStart
        = (p.1 - s.panOffset.1, p.2 - s.panOffset.2) ∧
    (handleMouseMove q (handleMouseDown p s)).panOffset
        = (q.1 - (p.1 - s.panOffset.1), q.2 - (p.2 - s.panOffset.2)) ∧
    (∀ (t : ViewerState) (r : ℚ × ℚ), t.isDragging = true → 1 < t.zoom →
      (handleMouseMove r t).panOffset
          = (r.1 - t.dragStart.1, r.2 - t.dragStart.2) ∧
      (handleMouseMove r t).dragStart = t.dragStart) := by
  have hmd : handleMouseDown p s
      = { s with isDragging := true
                 dragStart := (p.1 - s.panOffset.1, p.2 - s.panOffset.2) } := by
    rw [handleMouseDown, if_pos hz]
  refine ⟨by rw [hmd], by rw [hmd], ?_, ?_⟩
  · rw [hmd, handleMouseMove, if_pos ⟨rfl, hz⟩]
  · intro t r ht htz
    rw [handleMouseMove, if_pos ⟨ht, htz⟩]
    exact ⟨rfl, rfl⟩

/-- Witness for C7: with zoom 2 and panOffset (0,0), a press at (100,100)
records origin (100,100), and a following move to (130,100) sets
panOffset to (30,0). -/
theorem drag_sets_offset_absolutely_witness :
    (handleMouseDown (100, 100)
        ⟨2, 0, 100, 100, false, (0, 0), (0, 0)⟩).dragStart = (100, 100) ∧
    (handleMouseMove (130, 100) (handleMouseDown (100, 100)
        ⟨2, 0, 100, 100, false, (0, 0), (0, 0)⟩)).panOffset = (30, 0) := by
  have h := drag_sets_offset_absolutely
    ⟨2, 0, 100, 100, false, (0, 0), (0, 0)⟩ (100, 100) (130, 100)
    (by norm_num)
  refine ⟨?_, ?_⟩
  · rw [h.2.1]; norm_num
  · rw [h.2.2.1]; norm_num

/-- C8: the export stage allocates an output surface of exactly
`naturalWidth * zoom` by `naturalHeight * zoom`, independent of the
rotation; in particular zoom 2, rotation 90 on a 100 by 50 source gives a
200 by 100 surface. -/
theorem export_surface_size (img : SourceImage) (s : ViewerState) (rot : ℤ) :
    (handleSave img s).width = img.naturalWidth * s.zoom ∧
    (handleSave img s).height = img.naturalHeight * s.zoom ∧
    (handleSave img { s with rotation := rot }).width
        = (handleSave img s).width ∧
    (handleSave img { s with rotation := rot }).height
        = (handleSave img s).height ∧
    (handleSave ⟨100, 50⟩
        { initViewerState with zoom := 2, rotation := 90 }).width = 200 ∧
    (handleSave ⟨100, 50⟩
        { initViewerState with zoom := 2, rotation := 90 }).height = 100 := by
  refine ⟨?_, ?_, ?_, ?_, ?_, ?_⟩ <;>
    first
      | (rw [handleSave]; split <;> rfl)
      | (rw [handleSave, handleSave]; split <;> split <;> rfl)
      | (rw [handleSave]; norm_num [initViewerState])

/-- C9: the exported image is a function of zoom, rotation, contrast and
brightness only — states differing in panOffset (or any other field)
export identically — and the save command leaves the viewer state
unchanged. -/
theorem export_depends_only_on_transform (img : SourceImage)
    (s₁ s₂ : ViewerState) (hz : s₁.zoom = s₂.zoom)
    (hr : s₁.rotation = s₂.rotation) (hc : s₁.contrast = s₂.contrast)
    (hb : s₁.brightness = s₂.brightness) :
    handleSave img s₁ = handleSave img s₂ ∧
    step s₁ .save = s₁ ∧
    (∀ (po : ℚ × ℚ),
      handleSave img { s₁ with panOffset := po } = handleSave img s₁) := by
  refine ⟨?_, rfl, ?_⟩
  · rw [handleSave, handleSave, hz, hr, hc, hb]
  · intro po
    rw [handleSave, handleSave]

/-- Witness for C9: at zoom 2, rotation 90, two states that differ only in
panOffset, (7,9) versus (0,0), produce the same export. -/
theorem export_depends_only_on_transform_witness :
    handleSave ⟨100, 50⟩ ⟨2, 90, 120, 80, false, (0, 0), (7, 9)⟩
      = handleSave ⟨100, 50⟩ ⟨2, 90, 120, 80, false, (0, 0), (0, 0)⟩ ∧
    step ⟨2, 90, 120, 80, false, (0, 0), (7, 9)⟩ .save
      = ⟨2, 90, 120, 80, false, (0, 0), (7, 9)⟩ := by
  have h := export_depends_only_on_transform ⟨100, 50⟩
    ⟨2, 90, 120, 80, false, (0, 0), (7, 9)⟩
    ⟨2, 90, 120, 80, false, (0, 0), (0, 0)⟩ rfl rfl rfl rfl
  exact ⟨h.1, h.2.1⟩

/-- C10: for every analyzed file the generated report has riskLevel Low
and an (integer-valued) confidence in [70, 99], and its scanType is DICOM
CT Scan exactly when the lowercased file name ends with .dcm, Medical
Image otherwise. -/
theorem report_fields (fileName analysisDate : String) (rand : ℚ)
    (h0 : 0 ≤ rand) (h1 : rand < 1) :
    (sampleReportData fileName analysisDate rand).riskLevel = "Low" ∧
    70 ≤ (sampleReportData fileName analysisDate rand).confidence ∧
    (sampleReportData fileName analysisDate rand).confidence ≤ 99 ∧
    ((sampleReportData fileName analysisDate rand).scanType = "DICOM CT Scan"
      ↔ jsEndsWith (jsToLower fileName) ".dcm" = true) ∧
    (jsEndsWith (jsToLower fileName) ".dcm" = false →
      (sampleReportData fileName analysisDate rand).scanType
        = "Medical Image") := by
  have hconf : (sampleReportData fileName analysisDate rand).confidence
      = ⌊rand * 30⌋ + 70 := rfl
  have hfl : (0 : ℤ) ≤ ⌊rand * 30⌋ := Int.floor_nonneg.mpr (by positivity)
  have hfu : ⌊rand * 30⌋ < 30 := by
    rw [Int.floor_lt]
    push_cast
    nlinarith
  refine ⟨rfl, ?_, ?_, ?_, ?_⟩
  · rw [hconf]; omega
  · rw [hconf]; omega
  · constructor
    · intro h
      by_cases he : jsEndsWith (jsToLower fileName) ".dcm" = true
      · exact he
      · rw [sampleReportData] at h
        rw [if_neg (by simpa using he)] at h
        simp at h
    · intro he
      rw [sampleReportData, if_pos he]
  · intro he
    rw [sampleReportData]
    rw [if_neg (by simp [he])]

/-- Witness for C10: a file named scan.dcm with the random draw 1/2 gives
riskLevel Low, scanType DICOM CT Scan and confidence 85, inside [70,99]. -/
theorem report_fields_witness :
    (sampleReportData "scan.dcm" "October 11, 2026" (1/2)).riskLevel = "Low" ∧
    (sampleReportData "scan.dcm" "October 11, 2026" (1/2)).scanType
      = "DICOM CT Scan" ∧
    70 ≤ (sampleReportData "scan.dcm" "October 11, 2026" (1/2)).confidence ∧
    (sampleReportData "scan.dcm" "October 11, 2026" (1/2)).confidence ≤ 99 := by
  have h := report_fields "scan.dcm" "October 11, 2026" (1/2)
    (by norm_num) (by norm_num)
  exact ⟨h.1, h.2.2.2.1.mpr (by decide), h.2.1, h.2.2.1⟩

end PanInsight
